import Mathlib

/-!
Shallow embedding of the diagnostic-evaluation logic of the Frontline
Installer App (src/src/app.tsx).  Pure functions of the source are
translated to Lean functions; JS numbers that take fractional values are
modelled as rationals, `Math.round` as `jsRound` (floor of x + 1/2, the
JS rounding that sends ties toward positive infinity), nullable values as
`Option`, and the TS string unions as inductive types or strings exactly
as the source compares them.
-/

namespace Frontline

/-- Tri-state diagnostic verdict, `type DiagnosticStatus` of the source. -/
inductive DiagnosticStatus
  | success
  | warning
  | error
deriving DecidableEq, Repr

open DiagnosticStatus

/-- `type RuleEntry` of the source. -/
structure RuleEntry where
  id : String
  title : String
  intent : String
  green : List String
  yellow : List String
  red : List String
  recommendedActions : List String
deriving DecidableEq, Repr

/-- The `RULEBOOK` constant of the source: nine rule entries. -/
def RULEBOOK : List RuleEntry := [
  { id := "ethernet",
    title := "Ethernet",
    intent := "Proves wired connectivity is stable enough for cloud sync and commissioning.",
    green := [
      "Link detected = Yes (ethtool)",
      "Duplex = Full (ethtool)",
      "IPv4 address present (ifconfig)",
      "Internet reachable = Online (ethernet-check)",
      "Packet loss ≤ 2% (ethernet-check)"],
    yellow := [
      "Packet loss > 2% and ≤ 10%",
      "Speed lower than expected (e.g., 100 Mb/s when Gigabit is available)",
      "RX drops increasing (but errors remain 0)"],
    red := [
      "Link detected = No",
      "No IPv4 address",
      "Internet unreachable",
      "Packet loss > 10%",
      "RX/TX errors > 0",
      "Duplex mismatch or link flapping"],
    recommendedActions := [
      "Reseat/replace Ethernet cable with known-good cable",
      "Try a different router/switch port",
      "Re-run diagnostics",
      "If still failing: use Wi‑Fi/Cellular and flag controller/cable/router for follow-up"] },
  { id := "wifi",
    title := "Wi‑Fi",
    intent := "Verifies Wi‑Fi provisioning and link quality for primary or backup connectivity.",
    green := ["Connected to SSID", "Internet reachable", "Strength ≥ 60/100"],
    yellow := ["Wi‑Fi disabled (optional)", "Strength 30–59/100", "High latency or intermittent loss"],
    red := ["Not connected (when expected)", "No internet reachability", "Technology disabled unexpectedly"],
    recommendedActions := [
      "Use Current Wi‑Fi via Matter (fast path)",
      "Provision Selected Wi‑Fi via Matter",
      "Move closer / choose stronger SSID",
      "Confirm passcode",
      "Use Ethernet/Cellular as fallback"] },
  { id := "cellular",
    title := "Cellular",
    intent := "Verifies cellular modem is registered and usable as backup or primary uplink.",
    green := ["Internet reachable", "Packet loss ≤ 2%", "Signal ≥ 40/100"],
    yellow := ["Signal 20–39/100", "Latency high (still usable)", "Intermittent loss"],
    red := ["Internet unreachable", "No provider / no session", "Packet loss > 10%"],
    recommendedActions := [
      "Check antenna/placement",
      "Verify SIM active",
      "Reboot modem/controller",
      "Escalate to support if still no session"] },
  { id := "satellite",
    title := "Satellite",
    intent := "Confirms satellite backup is available when enabled.",
    green := ["Enabled and ready", "Recent successful contact"],
    yellow := ["Enabled but not currently connected", "Provisioned but idle"],
    red := ["Enabled but offline / fault", "No modem detected"],
    recommendedActions := [
      "Confirm satellite backup enabled",
      "Check antenna placement",
      "Re-run satellite diagnostic",
      "Escalate if modem not detected"] },
  { id := "power",
    title := "Power",
    intent := "Ensures controller supply voltage is within safe operating range.",
    green := ["12.0–15.0 V"],
    yellow := ["11.0–11.9 V", "15.1–16.0 V"],
    red := ["< 11.0 V", "> 16.0 V"],
    recommendedActions := [
      "Check power supply and wiring",
      "Verify battery/solar configuration",
      "Measure with multimeter if readings look wrong"] },
  { id := "manifold",
    title := "Manifold Pressure",
    intent := "Indicates pressure on the distribution/manifold side.",
    green := ["Pressure within expected operating range"],
    yellow := ["Pressure marginal (near limits)", "Pressure unstable"],
    red := ["Pressure too low for operation", "Pressure too high / unsafe"],
    recommendedActions := [
      "Check pump/valves state",
      "Verify supply and filters",
      "Re-run pressure test"] },
  { id := "source",
    title := "Source Pressure",
    intent := "Indicates supply pressure available from the water source.",
    green := ["Source pressure within expected range"],
    yellow := ["Low but usable", "Fluctuating"],
    red := ["No pressure / very low", "Unstable / unreliable source"],
    recommendedActions := [
      "Check supply valve/source",
      "Confirm tank level / municipal pressure",
      "Inspect intake/strainer"] },
  { id := "cloud",
    title := "Cloud Sync",
    intent := "Confirms controller can reach Frontline cloud services reliably.",
    green := ["Ping succeeds", "Recent sync timestamp"],
    yellow := ["Slow ping", "Delayed sync"],
    red := ["Cannot reach endpoint", "No sync"],
    recommendedActions := [
      "Fix underlying network (Ethernet/Wi‑Fi/Cellular)",
      "Re-run diagnostics",
      "Confirm endpoint configured"] },
  { id := "firmware",
    title := "Firmware",
    intent := "Shows installed firmware version and whether an update is recommended.",
    green := ["Version current / supported"],
    yellow := ["Update available (recommended)"],
    red := ["Unsupported / blocked version"],
    recommendedActions := [
      "Schedule update",
      "Confirm update window and connectivity",
      "Escalate if version is blocked"] }]

/-- JavaScript `Math.round`: nearest integer, ties toward positive infinity,
i.e. the floor of x + 1/2 (expressed with the computable `Rat.floor`). -/
def jsRound (q : ℚ) : ℤ := (q + 1/2).floor

theorem jsRound_eq (q : ℚ) : jsRound q = ⌊q + 1/2⌋ :=
  (Rat.floor_def' _).trans Rat.floor_def.symm

theorem jsRound_mono : Monotone jsRound := by
  intro a b hab
  simp only [jsRound_eq]
  exact Int.floor_le_floor (by linarith)

/-- The function `wifiChannelFromFreqMHz` of the source.  JS `!freqMHz` is
true for `null` and for `0`, so both yield `null`; the JS
`Number.isFinite(ch)` guard is always true in the rational model, so the
branch keeping `String(ch)` is the one taken. -/
def wifiChannelFromFreqMHz (freqMHz : Option ℚ) : Option String :=
  match freqMHz with
  | none => none
  | some f =>
    if f = 0 then none
    else if 2412 ≤ f ∧ f ≤ 2484 then some (toString (jsRound ((f - 2407) / 5)))
    else if 5000 ≤ f ∧ f ≤ 5900 then some (toString (jsRound ((f - 5000) / 5)))
    else none

/-- JS `s.repeat n`. -/
def strRepeat (s : String) (n : Nat) : String := String.join (List.replicate n s)

/-- The function `wifiStrengthGlyph` of the source.  `null` (and JS
non-finite numbers, which the rational model cannot represent) renders all
segments empty; otherwise the rounded percentage is clamped to [0,100] and
mapped to 0–5 filled bars. -/
def wifiStrengthGlyph (pct : Option ℚ) : String :=
  match pct with
  | none => "▯▯▯▯▯"
  | some p =>
    let clamped : ℤ := max 0 (min 100 (jsRound p))
    let filled : ℤ := max 0 (min 5 (jsRound ((clamped : ℚ) / 20)))
    strRepeat "▮" filled.toNat ++ strRepeat "▯" (5 - filled).toNat

/-- The `powerStatus` computation of the source (supply voltage in volts). -/
def powerStatus (voltage : ℚ) : DiagnosticStatus :=
  if 12 ≤ voltage ∧ voltage ≤ 15 then .success
  else if 11 ≤ voltage ∧ voltage < 12 then .warning
  else if 15 < voltage ∧ voltage ≤ 16 then .warning
  else .error

/-- The TS union `"online" | "offline" | "unknown"` used for internet
reachability fields. -/
inductive Reachability
  | online
  | offline
  | unknown
deriving DecidableEq, Repr

/-- Inputs of the Wi‑Fi status logic inside the `diagCards` memo. -/
structure WifiSnapshot where
  matterWifiProvisioned : Bool
  matterProvisionedSsid : Option String
  techPowered : Bool
  connected : Bool
  internetReachability : Reachability
deriving DecidableEq, Repr

/-- `const wifiProvisioned = Boolean(matterWifiProvisioned && matterProvisionedSsid)`:
a JS string is truthy iff it is non-null and non-empty. -/
def wifiProvisioned (s : WifiSnapshot) : Bool :=
  s.matterWifiProvisioned &&
    (match s.matterProvisionedSsid with
     | some ssid => ssid != ""
     | none => false)

/-- The `wifiStatus` conditional chain of the source. -/
def wifiStatus (s : WifiSnapshot) : DiagnosticStatus :=
  if wifiProvisioned s then
    if s.internetReachability = .online then .success else .warning
  else if !s.techPowered then .warning
  else if s.connected && (s.internetReachability == .online) then .success
  else if s.connected && !(s.internetReachability == .online) then .warning
  else .error

/-- The `wifiSummaryPrimary` ternary of the source. -/
def wifiSummaryPrimary (s : WifiSnapshot) : String :=
  match wifiStatus s with
  | .success => "Connected"
  | .warning => "Disabled / Optional"
  | .error => "Not Connected"

/-- Inputs of the Ethernet status logic (`ethLinkDetected`, `ethInternet`,
`ethRxErrors`, `ethTxErrors` of the source, compared as in the source). -/
structure EthSnapshot where
  linkDetected : String
  internet : String
  rxErrors : Nat
  txErrors : Nat
deriving DecidableEq, Repr

/-- The `ethStatus` conditional chain of the source. -/
def ethStatus (s : EthSnapshot) : DiagnosticStatus :=
  if s.linkDetected = "Yes" ∧ s.internet = "online" ∧ s.rxErrors = 0 ∧ s.txErrors = 0 then
    .success
  else if s.linkDetected ≠ "Yes" ∨ s.internet ≠ "online" then .error
  else .warning

/-- The Ethernet card `summaryPrimary` ternary of the source. -/
def ethSummaryPrimary (s : EthSnapshot) : String :=
  match ethStatus s with
  | .success => "Connected"
  | .warning => "Degraded"
  | .error => "Offline"

/-- The TS union `"ready" | "offline" | "not configured"` of `satStatus`. -/
inductive SatState
  | ready
  | offline
  | notConfigured
deriving DecidableEq, Repr

/-- The `satelliteStatus` conditional chain of the source. -/
def satelliteStatus (satEnabled : Bool) (satStatus : SatState) : DiagnosticStatus :=
  if satEnabled && (satStatus == .ready) then .success
  else if satEnabled && (satStatus == .offline) then .warning
  else .warning

/-- One `{ label, value }` detail row of a diagnostic card. -/
structure Detail where
  label : String
  value : String
deriving DecidableEq, Repr

/-- The remediation action kinds of the source. -/
inductive RemediationKind
  | goToNetwork
  | openCheatSheet
deriving DecidableEq, Repr

/-- One remediation action `{ label, kind }`. -/
structure RemediationAction where
  label : String
  kind : RemediationKind
deriving DecidableEq, Repr

/-- The optional remediation block of a diagnostic card. -/
structure Remediation where
  title : String
  actions : List RemediationAction
deriving DecidableEq, Repr

/-- `type DiagCardModel` of the source. -/
structure DiagCardModel where
  id : String
  title : String
  icon : String
  status : DiagnosticStatus
  summaryPrimary : String
  summarySecondary : String
  details : List Detail
  remediation : Option Remediation
deriving DecidableEq, Repr

/-- `diagCards.some((d) => d.status === "error")` in `OverallStatusCard`. -/
def hasError (cards : List DiagCardModel) : Bool :=
  cards.any fun d => d.status == .error

/-- `diagCards.some((d) => d.status === "warning")` in `OverallStatusCard`. -/
def hasWarning (cards : List DiagCardModel) : Bool :=
  cards.any fun d => d.status == .warning

/-- The `statusLabel` ternary of `OverallStatusCard`. -/
def overallStatusLabel (cards : List DiagCardModel) : String :=
  if hasError cards then "Needs Attention"
  else if hasWarning cards then "Good (with advisories)"
  else "Excellent"

/-- The `topIssues` computation of `OverallStatusCard`:
filter non-success, keep the first 3, render each as `title: summaryPrimary`. -/
def topIssues (cards : List DiagCardModel) : List String :=
  ((cards.filter fun d => d.status != .success).take 3).map
    fun d => d.title ++ ": " ++ d.summaryPrimary

/-- The issue list rendered by `OverallStatusCard`: the sentinel line when
`topIssues` is empty, otherwise one bulleted line per issue. -/
def overviewIssueLines (cards : List DiagCardModel) : List String :=
  if (topIssues cards).length = 0 then ["• All diagnostics passed."]
  else (topIssues cards).map fun n => "• " ++ n

/-- The "Overall Status" summary-row value computed inline in the Done step
of `FrontlineInstallerApp` (line 1173 of the source). -/
def doneOverallStatus (cards : List DiagCardModel) : String :=
  if cards.any fun d => d.status == .error then "Needs attention"
  else if cards.any fun d => d.status == .warning then "Good"
  else "Excellent"

/-- The rulebook lookup of `RulebookModal`:
`RULEBOOK.find((r) => r.id === selectedId)`. -/
def ruleLookup (selectedId : String) : Option RuleEntry :=
  RULEBOOK.find? fun r => r.id == selectedId

open DiagnosticStatus

/-- C1: for every supply voltage v, the power evaluation returns `success`
iff 12.0 ≤ v ≤ 15.0, `warning` iff 11.0 ≤ v < 12.0 or 15.0 < v ≤ 16.0, and
`error` otherwise (i.e. iff v < 11.0 or v > 16.0); in particular v = 12.0
gives success, v = 11.0 gives warning, v = 10.99 gives error, v = 16.0
gives warning, v = 16.01 gives error. -/
theorem power_status_thresholds : ∀ v : ℚ,
    (powerStatus v = success ↔ 12 ≤ v ∧ v ≤ 15) ∧
    (powerStatus v = warning ↔ (11 ≤ v ∧ v < 12) ∨ (15 < v ∧ v ≤ 16)) ∧
    (powerStatus v = error ↔ v < 11 ∨ 16 < v) ∧
    powerStatus 12 = success ∧ powerStatus 11 = warning ∧
    powerStatus (1099/100) = error ∧ powerStatus 16 = warning ∧
    powerStatus (1601/100) = error := by
  intro v
  refine ⟨?_, ?_, ?_, by norm_num [powerStatus], by norm_num [powerStatus],
    by norm_num [powerStatus], by norm_num [powerStatus], by norm_num [powerStatus]⟩
  · unfold powerStatus
    split_ifs with h1 h2 h3 <;> simp_all
  · unfold powerStatus
    split_ifs with h1 h2 h3
    · exact iff_of_false (by simp) (by rintro (⟨a, b⟩ | ⟨a, b⟩) <;> linarith [h1.1, h1.2])
    · exact iff_of_true rfl (Or.inl h2)
    · exact iff_of_true rfl (Or.inr h3)
    · exact iff_of_false (by simp) (by rintro (h | h); exacts [h2 h, h3 h])
  · unfold powerStatus
    split_ifs with h1 h2 h3
    · exact iff_of_false (by simp) (by rintro (a | a) <;> linarith [h1.1, h1.2])
    · exact iff_of_false (by simp) (by rintro (a | a) <;> linarith [h2.1, h2.2])
    · exact iff_of_false (by simp) (by rintro (a | a) <;> linarith [h3.1, h3.2])
    · refine iff_of_true rfl ?_
      push_neg at h1 h2 h3
      by_contra hc
      push_neg at hc
      have ha : 12 ≤ v := h2 hc.1
      have hb : 15 < v := h1 ha
      have hd : 16 < v := h3 hb
      linarith [hc.2]

/-- C2: for every set of verdicts, the aggregated overall label of
`OverallStatusCard` is "Needs Attention" iff at least one verdict is
`error` (regardless of how many warnings or successes accompany it),
"Good (with advisories)" iff there is no error but at least one warning,
and "Excellent" iff there is neither. -/
theorem overall_label_precedence : ∀ cards : List DiagCardModel,
    (overallStatusLabel cards = "Needs Attention" ↔ ∃ d ∈ cards, d.status = error) ∧
    (overallStatusLabel cards = "Good (with advisories)" ↔
      (¬ ∃ d ∈ cards, d.status = error) ∧ ∃ d ∈ cards, d.status = warning) ∧
    (overallStatusLabel cards = "Excellent" ↔
      (¬ ∃ d ∈ cards, d.status = error) ∧ ¬ ∃ d ∈ cards, d.status = warning) := by
  intro cards
  have he : hasError cards = true ↔ ∃ d ∈ cards, d.status = error := by
    simp [hasError, List.any_eq_true]
  have hw : hasWarning cards = true ↔ ∃ d ∈ cards, d.status = warning := by
    simp [hasWarning, List.any_eq_true]
  unfold overallStatusLabel
  split_ifs with h1 h2
  · exact ⟨iff_of_true rfl (he.mp h1),
      iff_of_false (by decide) (fun h => h.1 (he.mp h1)),
      iff_of_false (by decide) (fun h => h.1 (he.mp h1))⟩
  · exact ⟨iff_of_false (by decide) (fun h => h1 (he.mpr h)),
      iff_of_true rfl ⟨fun h => h1 (he.mpr h), hw.mp h2⟩,
      iff_of_false (by decide) (fun h => h.2 (hw.mp h2))⟩
  · exact ⟨iff_of_false (by decide) (fun h => h1 (he.mpr h)),
      iff_of_false (by decide) (fun h => h2 (hw.mpr h.2)),
      iff_of_true rfl ⟨fun h => h1 (he.mpr h), fun h => h2 (hw.mpr h)⟩⟩

/-- C3: `topIssues` is the non-success verdicts in fixed card declaration
order (the filtered list is a sublist of the input, so the input's order —
not severity order — is preserved), truncated to the first 3 matches, each
rendered as "title: summaryPrimary"; when every verdict is success the
rendered output is the explicit "All diagnostics passed." sentinel line
rather than an empty collection, and otherwise it is the bulleted
(non-empty) issue list. -/
theorem top_issues_order_truncation_sentinel : ∀ cards : List DiagCardModel,
    topIssues cards =
      ((cards.filter fun d => d.status != success).take 3).map
        (fun d => d.title ++ ": " ++ d.summaryPrimary) ∧
    (cards.filter fun d => d.status != success).Sublist cards ∧
    (topIssues cards).length ≤ 3 ∧
    ((∀ d ∈ cards, d.status = success) →
      overviewIssueLines cards = ["• All diagnostics passed."]) ∧
    ((∃ d ∈ cards, d.status ≠ success) →
      topIssues cards ≠ [] ∧
      overviewIssueLines cards = (topIssues cards).map fun n => "• " ++ n) := by
  intro cards
  refine ⟨rfl, List.filter_sublist cards, ?_, ?_, ?_⟩
  · simp only [topIssues, List.length_map, List.length_take]
    omega
  · intro h
    have hf : cards.filter (fun d => d.status != success) = [] :=
      List.filter_eq_nil_iff.mpr fun a ha => by simp [h a ha]
    simp [overviewIssueLines, topIssues, hf]
  · rintro ⟨d, hd, hs⟩
    have hmem : d ∈ cards.filter (fun d => d.status != success) :=
      List.mem_filter.mpr ⟨hd, by simpa using hs⟩
    have hne : topIssues cards ≠ [] := by
      simp only [topIssues]
      cases hfl : cards.filter (fun d => d.status != success) with
      | nil => rw [hfl] at hmem; simp at hmem
      | cons a as => simp
    refine ⟨hne, ?_⟩
    rw [overviewIssueLines, if_neg (by simpa [List.length_eq_zero] using hne)]

/-- C4: the rulebook lookup (`RULEBOOK.find`) succeeds exactly for the nine
defined subsystem ids and returns the matching entry (the found entry's id
is the requested id and the entry is in the rulebook); for every other id
it yields a "not found" result (`none`, so `isSome` is false). -/
theorem rulebook_lookup_exactly_nine_ids : ∀ id : String,
    ((ruleLookup id).isSome = true ↔
      id ∈ ["ethernet", "wifi", "cellular", "satellite", "power",
            "manifold", "source", "cloud", "firmware"]) ∧
    ∀ e : RuleEntry, ruleLookup id = some e → e.id = id ∧ e ∈ RULEBOOK := by
  intro id
  constructor
  · rw [ruleLookup, List.find?_isSome]
    constructor
    · rintro ⟨r, hr, hid⟩
      have hrid : r.id = id := by simpa using hid
      subst hrid
      simp only [RULEBOOK, List.mem_cons, List.not_mem_nil, or_false] at hr
      rcases hr with h | h | h | h | h | h | h | h | h <;> subst h <;> simp
    · intro hid
      simp only [List.mem_cons, List.not_mem_nil, or_false] at hid
      rcases hid with h | h | h | h | h | h | h | h | h <;> subst h <;> decide
  · intro e he
    exact ⟨by simpa using List.find?_some he, List.mem_of_find?_eq_some he⟩

/-- C5: the Wi‑Fi channel function maps a frequency f in the 2.4 GHz band
(2412 ≤ f ≤ 2484) to round((f − 2407)/5), a frequency in the 5 GHz band
(5000 ≤ f ≤ 5900) to round((f − 5000)/5), and every other frequency, as
well as null input, to an absent channel (`none`, not zero); in particular
channel(2412) = "1", channel(5180) = "36", channel(3000) and channel(null)
are absent. -/
theorem wifi_channel_from_frequency :
    wifiChannelFromFreqMHz none = none ∧
    wifiChannelFromFreqMHz (some 2412) = some "1" ∧
    wifiChannelFromFreqMHz (some 5180) = some "36" ∧
    wifiChannelFromFreqMHz (some 3000) = none ∧
    ∀ f : ℚ, wifiChannelFromFreqMHz (some f) =
      (if 2412 ≤ f ∧ f ≤ 2484 then some (toString (jsRound ((f - 2407) / 5)))
       else if 5000 ≤ f ∧ f ≤ 5900 then some (toString (jsRound ((f - 5000) / 5)))
       else none) := by
  refine ⟨rfl, by norm_num [wifiChannelFromFreqMHz, jsRound_eq]; rfl,
    by norm_num [wifiChannelFromFreqMHz, jsRound_eq]; rfl,
    by norm_num [wifiChannelFromFreqMHz], ?_⟩
  intro f
  by_cases h0 : f = 0
  · subst h0
    norm_num [wifiChannelFromFreqMHz]
  · simp [wifiChannelFromFreqMHz, h0]

/-- C6: the signal-bars glyph renders null input as all 5 segments empty,
100 as all 5 segments filled, 0 as all empty, clamps out-of-range input
(glyph(-5) = glyph(0), glyph(150) = glyph(100)) and, in general, agrees
with the glyph of the input clamped to [0, 100]. (JS non-finite inputs,
which the rational model cannot represent, take the same all-empty branch
as null in the source.) -/
theorem signal_glyph_clamped :
    wifiStrengthGlyph none = "▯▯▯▯▯" ∧
    wifiStrengthGlyph (some 100) = "▮▮▮▮▮" ∧
    wifiStrengthGlyph (some 0) = "▯▯▯▯▯" ∧
    wifiStrengthGlyph (some (-5)) = wifiStrengthGlyph (some 0) ∧
    wifiStrengthGlyph (some 150) = wifiStrengthGlyph (some 100) ∧
    ∀ p : ℚ, wifiStrengthGlyph (some p) = wifiStrengthGlyph (some (max 0 (min 100 p))) := by
  refine ⟨rfl, by norm_num [wifiStrengthGlyph, jsRound_eq, strRepeat]; rfl,
    by norm_num [wifiStrengthGlyph, jsRound_eq, strRepeat]; rfl,
    by norm_num [wifiStrengthGlyph, jsRound_eq],
    by norm_num [wifiStrengthGlyph, jsRound_eq], ?_⟩
  intro p
  have h0 : jsRound 0 = 0 := by norm_num [jsRound_eq]
  have h100 : jsRound 100 = 100 := by norm_num [jsRound_eq]
  have key : max 0 (min 100 (jsRound (max 0 (min 100 p)))) =
      max 0 (min 100 (jsRound p)) := by
    rw [jsRound_mono.map_max, jsRound_mono.map_min, h0, h100]
    omega
  simp only [wifiStrengthGlyph]
  rw [key]

/-- C7: for every satellite snapshot (any combination of the enabled flag
and the connectivity state) the satellite evaluation never returns `error`:
enabled with state ready yields `success`, and every other combination
yields `warning`. -/
theorem satellite_never_error : ∀ (satEnabled : Bool) (satStatus : SatState),
    satelliteStatus satEnabled satStatus ≠ error ∧
    (satelliteStatus satEnabled satStatus = success ↔
      satEnabled = true ∧ satStatus = SatState.ready) ∧
    (satelliteStatus satEnabled satStatus = warning ↔
      ¬(satEnabled = true ∧ satStatus = SatState.ready)) := by
  intro e st
  cases e <;> cases st <;> decide

/-- C8: for every ethernet snapshot, the status is `success` iff link
detected = "Yes" and internet = "online" and RX errors = 0 and TX errors
= 0; it is `error` iff the link is not detected or the internet is not
online; otherwise (link up and online but errors present) it is `warning`;
and a success verdict carries summaryPrimary "Connected" while an error
verdict carries summaryPrimary "Offline". -/
theorem ethernet_status_characterization : ∀ s : EthSnapshot,
    (ethStatus s = success ↔
      s.linkDetected = "Yes" ∧ s.internet = "online" ∧ s.rxErrors = 0 ∧ s.txErrors = 0) ∧
    (ethStatus s = error ↔ s.linkDetected ≠ "Yes" ∨ s.internet ≠ "online") ∧
    (ethStatus s = warning ↔
      s.linkDetected = "Yes" ∧ s.internet = "online" ∧
        (s.rxErrors ≠ 0 ∨ s.txErrors ≠ 0)) ∧
    (ethStatus s = success → ethSummaryPrimary s = "Connected") ∧
    (ethStatus s = error → ethSummaryPrimary s = "Offline") := by
  intro s
  refine ⟨?_, ?_, ?_, ?_, ?_⟩
  · unfold ethStatus
    split_ifs with h1 h2 <;> simp_all
  · unfold ethStatus
    split_ifs with h1 h2
    · exact iff_of_false (by decide) (by tauto)
    · exact iff_of_true rfl h2
    · exact iff_of_false (by decide) h2
  · unfold ethStatus
    split_ifs with h1 h2
    · exact iff_of_false (by decide) (by tauto)
    · exact iff_of_false (by decide) (by tauto)
    · push_neg at h1 h2
      refine iff_of_true rfl ⟨h2.1, h2.2, ?_⟩
      by_contra hc
      push_neg at hc
      exact (h1 h2.1 h2.2 hc.1) hc.2
  · intro h
    simp [ethSummaryPrimary, h]
  · intro h
    simp [ethSummaryPrimary, h]

/-- C9: for every Wi‑Fi snapshot, the verdict's summaryPrimary is the fixed
string "Disabled / Optional" exactly when the evaluated status is
`warning` — including when the warning arises from a provisioned or
connected interface that merely lacks internet reachability (two such
concrete snapshots are evaluated below), not only when Wi‑Fi is
disabled. -/
theorem wifi_warning_summary_disabled_optional : ∀ s : WifiSnapshot,
    (wifiSummaryPrimary s = "Disabled / Optional" ↔ wifiStatus s = warning) ∧
    wifiStatus ⟨true, some "Southern Cousin", true, true, .offline⟩ = warning ∧
    wifiSummaryPrimary ⟨true, some "Southern Cousin", true, true, .offline⟩ =
      "Disabled / Optional" ∧
    wifiStatus ⟨false, none, true, true, .offline⟩ = warning ∧
    wifiSummaryPrimary ⟨false, none, true, true, .offline⟩ = "Disabled / Optional" := by
  intro s
  refine ⟨?_, by decide, by decide, by decide, by decide⟩
  cases h : wifiStatus s
  · exact iff_of_false (by simp [wifiSummaryPrimary, h]) (by simp)
  · exact iff_of_true (by simp [wifiSummaryPrimary, h]) rfl
  · exact iff_of_false (by simp [wifiSummaryPrimary, h]) (by simp)

/-- C10: the overall label is computed in two places that disagree: with at
least one warning and no error, the Done step's summary row shows "Good"
while the overview card shows "Good (with advisories)" (so the two strings
differ); with an error present they show "Needs attention" / "Needs
Attention" (equal up to casing), and with all verdicts success both show
"Excellent". -/
theorem overall_label_two_computations_disagree : ∀ cards : List DiagCardModel,
    ((∃ d ∈ cards, d.status = error) →
      doneOverallStatus cards = "Needs attention" ∧
      overallStatusLabel cards = "Needs Attention") ∧
    (((¬ ∃ d ∈ cards, d.status = error) ∧ ∃ d ∈ cards, d.status = warning) →
      doneOverallStatus cards = "Good" ∧
      overallStatusLabel cards = "Good (with advisories)" ∧
      doneOverallStatus cards ≠ overallStatusLabel cards) ∧
    ((∀ d ∈ cards, d.status ≠ error ∧ d.status ≠ warning) →
      doneOverallStatus cards = "Excellent" ∧ overallStatusLabel cards = "Excellent") := by
  intro cards
  have he : (cards.any fun d => d.status == error) = true ↔
      ∃ d ∈ cards, d.status = error := by simp [List.any_eq_true]
  have hw : (cards.any fun d => d.status == warning) = true ↔
      ∃ d ∈ cards, d.status = warning := by simp [List.any_eq_true]
  refine ⟨?_, ?_, ?_⟩
  · intro h
    have h1 := he.mpr h
    exact ⟨by simp [doneOverallStatus, h1], by simp [overallStatusLabel, hasError, h1]⟩
  · rintro ⟨hne, hsw⟩
    have h1 : (cards.any fun d => d.status == error) = false :=
      Bool.eq_false_iff.mpr fun hh => hne (he.mp hh)
    have h2 := hw.mpr hsw
    refine ⟨by simp [doneOverallStatus, h1, h2],
      by simp [overallStatusLabel, hasError, hasWarning, h1, h2], ?_⟩
    simp only [doneOverallStatus, overallStatusLabel, hasError, hasWarning, h1, h2]
    simp
  · intro h
    have h1 : (cards.any fun d => d.status == error) = false :=
      Bool.eq_false_iff.mpr fun hh => by
        rcases he.mp hh with ⟨d, hd, hs⟩
        exact (h d hd).1 hs
    have h2 : (cards.any fun d => d.status == warning) = false :=
      Bool.eq_false_iff.mpr fun hh => by
        rcases hw.mp hh with ⟨d, hd, hs⟩
        exact (h d hd).2 hs
    exact ⟨by simp [doneOverallStatus, h1, h2],
      by simp [overallStatusLabel, hasError, hasWarning, h1, h2]⟩

end Frontline
